/-
Verification of the expense classification-and-retrieval engine of the
AI-Invoice-Reimbursement-System repository.

Shallow embedding conventions:
* Python `float` amounts and scores are modelled as `ℚ` (the amounts that occur
  are exact decimals; the claims under study are order-logic facts, and the one
  claim touching NaN explicitly restricts itself to non-NaN reals).
* Python `str.lower()` is modelled by `String.toLower`; all policy keywords are
  ASCII, where the two functions agree.
* External capabilities (the MongoDB aggregate call, the LLM provider call, the
  embedding model) are modelled as explicit `Except`-valued parameters: `.ok`
  is a normal return, `.error` a raised exception.
* Numeric-to-string formatting inside human-readable reason strings is
  abstracted by `ratStr` (Python float formatting is not reproduced digit for
  digit; no claim depends on it).
-/
import Mathlib

/-- Python substring test `sub in s` on the character lists of the strings. -/
def strContains (s sub : String) : Bool :=
  (List.range (s.data.length + 1)).any (fun i => sub.data.isPrefixOf (s.data.drop i))

/-- Python `any(word in s for word in words)`. -/
def containsAny (s : String) (words : List String) : Bool :=
  words.any (fun w => strContains s w)

/-- Models Python `str.lower()`; agrees with it on the ASCII range, where every
policy keyword lives.  Written over the character list so that the kernel can
evaluate it on concrete strings. -/
def pyLower (s : String) : String := String.mk (s.data.map Char.toLower)

/-- Numeric formatting used inside reason strings; abstracts Python float
formatting. -/
def ratStr (q : ℚ) : String := toString q

/-- `PolicyRule` dataclass of `app/services/policy_service.py`. -/
structure PolicyRule where
  category : String
  description : String
  max_amount : ℚ
  conditions : List String
  restrictions : List String
  policy_section : String
deriving DecidableEq, Repr

/-- The `food_beverages` entry of `PolicyService._initialize_policy_rules`. -/
def foodRule : PolicyRule :=
  ⟨"Food and Beverages", "Meals during work travel or business meetings", 200,
   ["Traveling for work", "Attending business meetings"],
   ["Alcoholic beverages not reimbursable"],
   "5.1 Food and Beverages"⟩

/-- The `travel_expenses` entry of the rule table. -/
def travelRule : PolicyRule :=
  ⟨"Travel Expenses", "Work-related travel expenses", 2000,
   ["Work-related travel only"],
   ["Personal travel expenses not reimbursed"],
   "5.2 Travel Expenses"⟩

/-- The `cab` entry of the rule table. -/
def cabRule : PolicyRule :=
  ⟨"Cab Expenses", "Regular cab/taxi expenses for work", 200,
   ["Work-related cab rides"],
   ["Personal cab rides not reimbursed"],
   "5.2 Travel Expenses"⟩

/-- The `daily_cab` entry of the rule table. -/
def dailyCabRule : PolicyRule :=
  ⟨"Daily Office Cab", "Daily office cab allowance", 150,
   ["Daily office commute"],
   ["Only for office commute"],
   "5.2 Travel Expenses"⟩

/-- The `accommodation` entry of the rule table. -/
def accommodationRule : PolicyRule :=
  ⟨"Accommodation", "Hotel stays for overnight business travel", 50,
   ["Overnight business travel"],
   ["Use company-approved hotels when available", "Excludes taxes and fees"],
   "5.3 Accommodation"⟩

/-- `PolicyService._initialize_policy_rules`: the built-in rule table, as an
association list (the Python dict literal, in insertion order). -/
def policy_rules : List (String × PolicyRule) :=
  [("food_beverages", foodRule),
   ("travel_expenses", travelRule),
   ("cab", cabRule),
   ("daily_cab", dailyCabRule),
   ("accommodation", accommodationRule)]

/-- Python dict lookup `self.policy_rules[category]` / membership test
`category in self.policy_rules`. -/
def findRule (category : String) : Option PolicyRule :=
  (policy_rules.find? (fun p => p.1 == category)).map (fun p => p.2)

/-- Result dict of `PolicyService.validate_against_policy`. -/
structure Decision where
  status : String
  reason : String
  policy_reference : String
  amount : ℚ
  reimbursed_amount : ℚ
deriving DecidableEq, Repr

/-- Alcohol restriction keywords checked for `food_beverages`
(policy_service.py line 237). -/
def alcoholWords : List String := ["alcohol", "beer", "wine", "liquor"]

/-- The unknown-category branch of `validate_against_policy` (lines 224-231). -/
def unknownCategoryDecision (category : String) (amount : ℚ) : Decision :=
  ⟨"Declined", "Unknown expense category: " ++ category,
   "Policy does not cover this category", amount, 0⟩

/-- The alcohol-restriction branch of `validate_against_policy` (lines 237-244). -/
def restrictionDecision (rule : PolicyRule) (amount : ℚ) : Decision :=
  ⟨"Declined", "Alcoholic beverages are not reimbursable according to policy",
   rule.policy_section, amount, 0⟩

/-- The over-limit branch of `validate_against_policy` (lines 247-254). -/
def partialDecision (rule : PolicyRule) (amount : ℚ) : Decision :=
  ⟨"Partially Reimbursed",
   "Amount (₹" ++ ratStr amount ++ ") exceeds policy limit of ₹" ++
     ratStr rule.max_amount ++ " for " ++ rule.category,
   rule.policy_section, amount, rule.max_amount⟩

/-- The within-limit branch of `validate_against_policy` (lines 257-264). -/
def fullDecision (rule : PolicyRule) (amount : ℚ) : Decision :=
  ⟨"Fully Reimbursed",
   "Amount (₹" ++ ratStr amount ++ ") is within policy limit of ₹" ++
     ratStr rule.max_amount ++ " for " ++ rule.category,
   rule.policy_section, amount, amount⟩

/-- The trailing branch of `validate_against_policy` (lines 266-272). -/
def undeterminedDecision (rule : PolicyRule) (amount : ℚ) : Decision :=
  ⟨"Declined", "Unable to determine reimbursement status",
   rule.policy_section, amount, 0⟩

/-- `PolicyService.validate_against_policy` (policy_service.py lines 222-272).
The local variable `invoice_lower = invoice_text.lower()` is inlined. -/
def validate_against_policy (category : String) (amount : ℚ) (invoice_text : String) : Decision :=
  match findRule category with
  | none => unknownCategoryDecision category amount
  | some rule =>
    if category = "food_beverages" ∧ containsAny (pyLower invoice_text) alcoholWords = true then
      restrictionDecision rule amount
    else if amount > rule.max_amount then
      partialDecision rule amount
    else if amount ≤ rule.max_amount then
      fullDecision rule amount
    else
      undeterminedDecision rule amount

/-- Keyword group 1 of `validate_expense_category` (line 202). -/
def foodWords : List String :=
  ["food", "meal", "restaurant", "cafe", "dining", "lunch", "dinner", "breakfast"]

/-- Keyword group 2 (line 204). -/
def hotelWords : List String := ["hotel", "accommodation", "lodging", "stay", "room"]

/-- Keyword group 3 (line 206). -/
def cabGroupWords : List String := ["cab", "taxi", "uber", "ola"]

/-- Sub-group of group 3 selecting `daily_cab` (line 208). -/
def dailyWords : List String := ["daily", "office", "commute", "regular"]

/-- Sub-group of group 3 selecting `travel_expenses` (line 211). -/
def businessWords : List String := ["client", "meeting", "business", "trip", "visit"]

/-- Keyword group 4 (line 216). -/
def transportWords : List String := ["transport", "travel", "flight", "train", "bus"]

/-- Category-determination part of `PolicyService.validate_expense_category`
(policy_service.py lines 201-220).  The amount-extraction part of that function
(lines 181-199, an ordered regex scan) is independent of the category choice and
is not needed by any claim; the claims treat the amount as a parameter. -/
def expenseCategory (invoice_text : String) : String :=
  if containsAny (pyLower invoice_text) foodWords then "food_beverages"
  else if containsAny (pyLower invoice_text) hotelWords then "accommodation"
  else if containsAny (pyLower invoice_text) cabGroupWords then
    (if containsAny (pyLower invoice_text) dailyWords then "daily_cab"
     else if containsAny (pyLower invoice_text) businessWords then "travel_expenses"
     else "cab")
  else if containsAny (pyLower invoice_text) transportWords then "travel_expenses"
  else "travel_expenses"

/-- Spec-side cab sub-priority, written from spec §4.1 item 3: daily keywords
give `daily_cab`, else business keywords give `travel_expenses`, else `cab`. -/
def specCabSub (lower : String) : String :=
  if containsAny lower dailyWords then "daily_cab"
  else if containsAny lower businessWords then "travel_expenses"
  else "cab"

/-- Spec-side ordered keyword groups of §4.1: each group is its keyword list
paired with the outcome function applied to the lower-cased text. -/
def specGroups : List (List String × (String → String)) :=
  [(foodWords, fun _ => "food_beverages"),
   (hotelWords, fun _ => "accommodation"),
   (cabGroupWords, specCabSub),
   (transportWords, fun _ => "travel_expenses")]

/-- Spec-side classifier, written from the words of the spec: the first group with
any lower-cased substring hit wins; no hit defaults to `travel_expenses`. -/
def specClassifyCategory (lower : String) : String :=
  match specGroups.find? (fun g => containsAny lower g.1) with
  | some g => g.2 lower
  | none => "travel_expenses"

/-- `PolicyService.analyze_invoice_with_policy` (lines 274-299), with the
extracted amount passed as a parameter (see `expenseCategory`).  Returns the
validation decision, the `category` value and the `policy_rule` description
added to the result dict; the `except` branch fires exactly when the category
is missing from the rule table (the `KeyError` of `self.policy_rules[category]`,
the only fallible step). -/
def analyze_invoice_with_policy (invoice_text : String) (amount : ℚ) :
    Decision × String × Option String :=
  let category := expenseCategory invoice_text
  match findRule category with
  | some rule =>
    (validate_against_policy category amount invoice_text, category, some rule.description)
  | none =>
    (⟨"Declined", "Policy analysis failed: KeyError", "Error in policy analysis", 0, 0⟩,
     "unknown", none)

/-- A stored MongoDB invoice document, abstracted to its equality-filterable
fields (string key-value pairs), for `DatabaseManager` (app/database.py). -/
structure StoredDoc where
  fields : List (String × String)
deriving DecidableEq, Repr

/-- A MongoDB equality filter `{k1: v1, ...}` matches a document when every
listed key holds the listed value. -/
def matchesFilters (filters : List (String × String)) (d : StoredDoc) : Bool :=
  filters.all (fun kv => d.fields.lookup kv.1 == some kv.2)

/-- `DatabaseManager.text_search` (database.py lines 137-146):
`find(filters).limit(limit)` over the stored collection, with the default
`limit = 10` of the Python signature.  The collaborator`s own failure path
(`except` returning `[]`) is not modelled: the storage scan is assumed to
respond. -/
def text_search (store : List StoredDoc) (filters : List (String × String))
    (limit : Nat := 10) : List StoredDoc :=
  (store.filter (matchesFilters filters)).take limit

/-- `DatabaseManager.vector_search` (database.py lines 95-135).  The aggregate
pipeline (`$search` with `k = limit`, optional `$match` on the filters, score
projection) is executed entirely by the vector-search capability, modelled as
`vecCap` invoked with the caller`s limit and filters; `.error` is the raised
exception of the `try` block.  On error the code falls back to
`text_search(filters or {})`, leaving the Python default `limit = 10` in
place. -/
def vector_search
    (vecCap : Nat → Option (List (String × String)) → Except String (List StoredDoc))
    (store : List StoredDoc) (limit : Nat)
    (filters : Option (List (String × String))) : List StoredDoc :=
  match vecCap limit filters with
  | Except.ok results => results
  | Except.error _ => text_search store (filters.getD [])

/-- A vector-search result document as consumed by the chat pipeline
(`analysis_service.process_chat_query`, `llm_service`): the fields read via
`.get(...)`, each `Option` because MongoDB documents need not carry them.
`status` stands for `doc["analysis_result"]["status"]`. -/
structure ChatDoc where
  invoice_id : Option String
  employee_name : Option String
  status : Option String
  reason : Option String
  policy_reference : Option String
  content : String
  score : Option ℚ
deriving DecidableEq, Repr

/-- A source entry of the chat response (analysis_service.py lines 172-178).
The `date` field (the record`s `created_at` timestamp, defaulted to the
current time) is not modelled: no claim mentions it. -/
structure ChatSource where
  invoice_id : String
  employee : String
  status : String
  similarity_score : ℚ
deriving DecidableEq, Repr

/-- The per-result source dict built at analysis_service.py lines 172-178, with
the literal "Unknown" / `0.0` defaults of `.get`. -/
def mkChatSource (d : ChatDoc) : ChatSource :=
  ⟨d.invoice_id.getD "Unknown", d.employee_name.getD "Unknown",
   d.status.getD "Unknown", d.score.getD 0⟩

/-- `LLMService._get_fallback_chat_response` (llm_service.py lines 262-264). -/
def fallback_chat_response (query : String) : String :=
  "I apologize, but I\u0027m unable to process your query at the moment. Please try again later or contact support if the issue persists.\n\nYour query was: " ++ query

/-- `LLMService.answer_chat_query` (llm_service.py lines 72-91).  `genCap` is
the provider call on the prompt built from the query and the context documents
(`_create_chat_prompt`); any exception of the `try` block — provider failure or
an unsupported provider — is the `.error` case and yields the fixed fallback. -/
def answer_chat_query (genCap : Except String String) (query : String)
    (context_documents : List ChatDoc) : String :=
  match genCap with
  | Except.ok response => response.trim
  | Except.error _ => fallback_chat_response query

/-- `AnalysisService.process_chat_query` (analysis_service.py lines 147-185).
`embedCap` is the query-embedding step (its failure reaches the outer `except`);
`search_results` is what `db_manager.vector_search` returned; `genCap` is the
generation capability used by `answer_chat_query`.  Returns
`(response, sources, confidence_score)`. -/
def process_chat_query (embedCap : Except String Unit) (genCap : Except String String)
    (query : String) (search_results : List ChatDoc) :
    String × List ChatSource × ℚ :=
  match embedCap with
  | Except.error e =>
    ("Sorry, I encountered an error while processing your query: " ++ e, [], 0)
  | Except.ok _ =>
    if search_results.isEmpty then
      ("I couldn\u0027t find any relevant invoice analyses to answer your query.", [], 0)
    else
      let confidence : ℚ :=
        match search_results.head? with
        | some d => d.score.getD 0
        | none => 0
      let response := answer_chat_query genCap query search_results
      let sources := (search_results.take 5).map mkChatSource
      (response, sources, confidence)

/-- The `InvoiceAnalysis` pydantic model (app/models.py lines 13-21). -/
structure InvoiceAnalysisR where
  invoice_id : String
  status : String
  reason : String
  policy_reference : String
  amount : Option ℚ
  reimbursed_amount : Option ℚ
  category : Option String
  policy_rule : Option String
deriving DecidableEq, Repr

/-- The `AnalysisResponse` model (models.py lines 28-32); the wall-clock
`processing_time` field is not modelled. -/
structure AnalysisResponseR where
  status : String
  results : List InvoiceAnalysisR
  total_invoices : Nat
deriving DecidableEq, Repr

/-- The per-document fallback entry built in the loop`s `except` branch
(analysis_service.py lines 112-121). -/
def fallbackInvoiceAnalysis (filename err : String) : InvoiceAnalysisR :=
  ⟨filename, "Declined", "Analysis failed: " ++ err, "Error in processing",
   none, none, none, none⟩

/-- The batch-level error response built in the outer `except`
(analysis_service.py lines 140-145). -/
def errorResponse : AnalysisResponseR := ⟨"error", [], 0⟩

/-- `True` exactly on `Except.ok`. -/
def exceptOk {ε α : Type} : Except ε α → Bool
  | Except.ok _ => true
  | Except.error _ => false

/-- `AnalysisService.analyze_invoices` (analysis_service.py lines 22-145).
Collaborator outcomes are parameters: `validZip` is
`pdf_service.validate_zip_file`; `policyProvided` is the truthiness of
`policy_bytes and policy_filename`; `validPolicyPdf` is
`pdf_service.validate_pdf_file`; `policyText` is the text extracted from the
uploaded policy PDF (custom-policy mode only); `invoices` is
`pdf_service.extract_invoices_from_zip`; `step` is the body of the
per-document `try` block (classification or LLM analysis, pydantic model
construction, embedding, document assembly), whose `.error` is the exception
caught at lines 112-121; `dbInsert` is `db_manager.insert_invoices_batch`,
invoked only when at least one document produced a storable record.  Each
`raise ValueError` caught by the outer `except` is written as an immediate
`errorResponse` return. -/
def analyze_invoices (validZip useIntegratedPolicy policyProvided validPolicyPdf : Bool)
    (policyText : String) (invoices : List (String × String))
    (step : String → String → Except String InvoiceAnalysisR)
    (dbInsert : Except String (List String)) : AnalysisResponseR :=
  if validZip = false then errorResponse
  else if useIntegratedPolicy = false ∧ policyProvided = false then errorResponse
  else if useIntegratedPolicy = false ∧ validPolicyPdf = false then errorResponse
  else if useIntegratedPolicy = false ∧ policyText.trim = "" then errorResponse
  else if invoices = [] then errorResponse
  else
    let results := invoices.map (fun doc =>
      match step doc.1 doc.2 with
      | Except.ok a => a
      | Except.error e => fallbackInvoiceAnalysis doc.1 e)
    let anyStored := invoices.any (fun doc => exceptOk (step doc.1 doc.2))
    if anyStored = true then
      match dbInsert with
      | Except.error _ => errorResponse
      | Except.ok _ => ⟨"success", results, invoices.length⟩
    else ⟨"success", results, invoices.length⟩

/-- With the category present in the rule table, `validate_against_policy`
reduces to its three-way guard chain over that rule. -/
lemma validate_some (c : String) (r : PolicyRule) (a : ℚ) (t : String)
    (hr : findRule c = some r) :
    validate_against_policy c a t =
      (if c = "food_beverages" ∧ containsAny (pyLower t) alcoholWords = true then
        restrictionDecision r a
      else if a > r.max_amount then partialDecision r a
      else if a ≤ r.max_amount then fullDecision r a
      else undeterminedDecision r a) := by
  unfold validate_against_policy
  rw [hr]

/-- With the category present, the result is one of the restriction, over-limit
and within-limit decisions. -/
lemma validate_cases (c : String) (r : PolicyRule) (a : ℚ) (t : String)
    (hr : findRule c = some r) :
    validate_against_policy c a t = restrictionDecision r a ∨
    validate_against_policy c a t = partialDecision r a ∨
    validate_against_policy c a t = fullDecision r a := by
  rw [validate_some c r a t hr]
  by_cases h1 : (c = "food_beverages" ∧ containsAny (pyLower t) alcoholWords = true)
  · rw [if_pos h1]; exact Or.inl rfl
  · rw [if_neg h1]
    by_cases h2 : a > r.max_amount
    · rw [if_pos h2]; exact Or.inr (Or.inl rfl)
    · rw [if_neg h2, if_pos (le_of_not_lt h2)]
      exact Or.inr (Or.inr rfl)

/-- Every rule returned by `findRule` is an entry of the built-in table. -/
lemma findRule_mem (c : String) (r : PolicyRule) (hr : findRule c = some r) :
    ∃ p ∈ policy_rules, p.2 = r := by
  unfold findRule at hr
  cases hf : policy_rules.find? (fun p => p.1 == c) with
  | none => rw [hf] at hr; simp at hr
  | some p =>
    rw [hf] at hr
    refine ⟨p, List.mem_of_find?_eq_some hf, ?_⟩
    simpa using hr

/-- Every built-in rule has a nonnegative maximum amount. -/
lemma rule_max_nonneg (c : String) (r : PolicyRule) (hr : findRule c = some r) :
    0 ≤ r.max_amount := by
  obtain ⟨p, hm, hp⟩ := findRule_mem c r hr
  rw [← hp]
  fin_cases hm <;>
    norm_num [foodRule, travelRule, cabRule, dailyCabRule, accommodationRule]

/-- The classifier only ever emits the five built-in category ids. -/
lemma expenseCategory_mem (t : String) :
    expenseCategory t ∈
      (["food_beverages", "accommodation", "daily_cab", "travel_expenses", "cab"] : List String) := by
  unfold expenseCategory
  split_ifs <;> simp

/-- C1: for every category present in the rule set and every text that does not
trigger the restriction check, an amount strictly above the rule maximum yields
status "Partially Reimbursed" with the maximum reimbursed, and an amount at or
below the maximum (including 0) yields status "Fully Reimbursed" with the
claimed amount reimbursed. -/
theorem validate_amount_limits (category : String) (rule : PolicyRule) (amount : ℚ)
    (invoice_text : String)
    (hrule : findRule category = some rule)
    (hres : ¬(category = "food_beverages" ∧
              containsAny (pyLower invoice_text) alcoholWords = true)) :
    (rule.max_amount < amount →
      (validate_against_policy category amount invoice_text).status = "Partially Reimbursed" ∧
      (validate_against_policy category amount invoice_text).reimbursed_amount = rule.max_amount) ∧
    (amount ≤ rule.max_amount →
      (validate_against_policy category amount invoice_text).status = "Fully Reimbursed" ∧
      (validate_against_policy category amount invoice_text).reimbursed_amount = amount) := by
  rw [validate_some category rule amount invoice_text hrule, if_neg hres]
  constructor
  · intro h
    rw [if_pos h]
    exact ⟨rfl, rfl⟩
  · intro h
    rw [if_neg (not_lt.mpr h), if_pos h]
    exact ⟨rfl, rfl⟩

/-- Witness for C1 at category `accommodation` (limit 50), text "hotel",
amounts 100 (over limit) and 30 (within limit). -/
theorem validate_amount_limits_witness :
    (validate_against_policy "accommodation" 100 "hotel").status = "Partially Reimbursed" ∧
    (validate_against_policy "accommodation" 100 "hotel").reimbursed_amount = 50 ∧
    (validate_against_policy "accommodation" 30 "hotel").status = "Fully Reimbursed" ∧
    (validate_against_policy "accommodation" 30 "hotel").reimbursed_amount = 30 := by
  have h1 := validate_amount_limits "accommodation" accommodationRule 100 "hotel"
    (by decide) (by decide)
  have h2 := validate_amount_limits "accommodation" accommodationRule 30 "hotel"
    (by decide) (by decide)
  have hp := h1.1 (by norm_num [accommodationRule])
  have hf := h2.2 (by norm_num [accommodationRule])
  exact ⟨hp.1, hp.2, hf.1, hf.2⟩

/-- C2: for every amount and every invoice text whose lower-cased form contains
an alcohol keyword, validation of category `food_beverages` returns status
"Declined" with reimbursed amount 0, regardless of the amount: the result is
the restriction-branch decision, which precedes any amount-limit comparison. -/
theorem food_alcohol_declined (amount : ℚ) (invoice_text : String)
    (halc : containsAny (pyLower invoice_text) alcoholWords = true) :
    (validate_against_policy "food_beverages" amount invoice_text).status = "Declined" ∧
    (validate_against_policy "food_beverages" amount invoice_text).reimbursed_amount = 0 ∧
    validate_against_policy "food_beverages" amount invoice_text =
      restrictionDecision foodRule amount := by
  have hr : findRule "food_beverages" = some foodRule := by decide
  rw [validate_some _ foodRule amount invoice_text hr, if_pos ⟨rfl, halc⟩]
  exact ⟨rfl, rfl, rfl⟩

/-- Witness for C2 at amount 999999 and text "Team dinner with beer". -/
theorem food_alcohol_declined_witness :
    containsAny (pyLower "Team dinner with beer") alcoholWords = true ∧
    (validate_against_policy "food_beverages" 999999 "Team dinner with beer").status = "Declined" ∧
    (validate_against_policy "food_beverages" 999999 "Team dinner with beer").reimbursed_amount = 0 := by
  have h := food_alcohol_declined 999999 "Team dinner with beer" (by decide)
  exact ⟨by decide, h.1, h.2.1⟩

/-- C3: the classifier equals the spec-side classifier built from the fixed
priority order over keyword groups (food, hotel, cab with its daily/business
sub-priority, transport, default `travel_expenses`), on every input text. -/
theorem classifier_follows_spec_priority (t : String) :
    expenseCategory t = specClassifyCategory (pyLower t) := by
  unfold expenseCategory specClassifyCategory specGroups specCabSub
  cases hf : containsAny (pyLower t) foodWords <;>
  cases hh : containsAny (pyLower t) hotelWords <;>
  cases hc : containsAny (pyLower t) cabGroupWords <;>
  cases ht : containsAny (pyLower t) transportWords <;>
    simp [List.find?, hf, hh, hc, ht]

/-- The matched rule maximum: the limit of the category, 0 when absent. -/
def ruleLimit (category : String) : ℚ :=
  match findRule category with
  | some rule => rule.max_amount
  | none => 0

/-- C4: for every category id, amount and invoice text, the reimbursed amount
of the produced decision never exceeds the matched rule maximum (0 for a
category absent from the rule set). -/
theorem reimbursed_never_exceeds_limit (category : String) (amount : ℚ)
    (invoice_text : String) :
    (validate_against_policy category amount invoice_text).reimbursed_amount ≤
      ruleLimit category := by
  cases hr : findRule category with
  | none =>
    have hL : ruleLimit category = 0 := by unfold ruleLimit; rw [hr]
    have hv : validate_against_policy category amount invoice_text =
        unknownCategoryDecision category amount := by
      unfold validate_against_policy; rw [hr]
    rw [hL, hv]
    exact le_refl 0
  | some rule =>
    have hL : ruleLimit category = rule.max_amount := by unfold ruleLimit; rw [hr]
    rw [hL, validate_some category rule amount invoice_text hr]
    by_cases h1 : (category = "food_beverages" ∧
        containsAny (pyLower invoice_text) alcoholWords = true)
    · rw [if_pos h1]
      exact rule_max_nonneg category rule hr
    · rw [if_neg h1]
      by_cases h2 : amount > rule.max_amount
      · rw [if_pos h2]
        exact le_refl _
      · rw [if_neg h2, if_pos (le_of_not_lt h2)]
        exact le_of_not_lt h2

/-- C9: the amount comparisons of `validate_against_policy` are exhaustive
over the rationals, so the trailing "Unable to determine reimbursement status"
branch is unreachable: the result is always the unknown-category decision or,
for a category present in the rule set, one of the restriction, over-limit and
within-limit decisions — never the undetermined decision. -/
theorem validate_branches_exhaustive (category : String) (amount : ℚ)
    (invoice_text : String) :
    validate_against_policy category amount invoice_text =
        unknownCategoryDecision category amount ∨
    ∃ rule, findRule category = some rule ∧
      (validate_against_policy category amount invoice_text = restrictionDecision rule amount ∨
       validate_against_policy category amount invoice_text = partialDecision rule amount ∨
       validate_against_policy category amount invoice_text = fullDecision rule amount) ∧
      validate_against_policy category amount invoice_text ≠
        undeterminedDecision rule amount := by
  cases hr : findRule category with
  | none =>
    left
    unfold validate_against_policy
    rw [hr]
  | some rule =>
    right
    refine ⟨rule, rfl, validate_cases category rule amount invoice_text hr, ?_⟩
    rcases validate_cases category rule amount invoice_text hr with h | h | h <;> rw [h] <;>
      intro heq
    · have := congrArg Decision.reason heq
      simp [restrictionDecision, undeterminedDecision] at this
    · have := congrArg Decision.status heq
      simp [partialDecision, undeterminedDecision] at this
    · have := congrArg Decision.status heq
      simp [fullDecision, undeterminedDecision] at this

/-- When the classified category is in the table, the decision of
`analyze_invoice_with_policy` is the validator output. -/
lemma analyze_fst (t : String) (a : ℚ) (r : PolicyRule)
    (hr : findRule (expenseCategory t) = some r) :
    (analyze_invoice_with_policy t a).1 =
      validate_against_policy (expenseCategory t) a t := by
  unfold analyze_invoice_with_policy
  dsimp only
  rw [hr]

/-- A decision carrying a section reference of the built-in table is never the
unknown-category decision. -/
lemma validate_ne_unknown (c : String) (r : PolicyRule) (a : ℚ) (t : String)
    (hr : findRule c = some r)
    (hps : r.policy_section ≠ "Policy does not cover this category") :
    validate_against_policy c a t ≠ unknownCategoryDecision c a := by
  rcases validate_cases c r a t hr with h | h | h <;> rw [h] <;> intro heq <;>
    exact hps (congrArg Decision.policy_reference heq)

/-- C10: the classifier only emits the five built-in rule-set keys, such a key
always finds a rule, and feeding the classifier output to the validator —
directly or through the integrated-policy analysis — can never produce the
unknown-category "Declined" decision. -/
theorem classifier_output_always_covered (t : String) (a : ℚ) (txt : String) :
    expenseCategory t ∈
      (["food_beverages", "accommodation", "daily_cab", "travel_expenses", "cab"] : List String) ∧
    (findRule (expenseCategory t)).isSome = true ∧
    validate_against_policy (expenseCategory t) a txt ≠
      unknownCategoryDecision (expenseCategory t) a ∧
    (analyze_invoice_with_policy t a).1 ≠
      unknownCategoryDecision (expenseCategory t) a := by
  have hmem := expenseCategory_mem t
  simp only [List.mem_cons, List.mem_nil_iff, or_false] at hmem
  refine ⟨expenseCategory_mem t, ?_, ?_, ?_⟩
  · rcases hmem with h | h | h | h | h <;> rw [h] <;> decide
  · rcases hmem with h | h | h | h | h <;> rw [h]
    · exact validate_ne_unknown _ foodRule a txt (by decide) (by decide)
    · exact validate_ne_unknown _ accommodationRule a txt (by decide) (by decide)
    · exact validate_ne_unknown _ dailyCabRule a txt (by decide) (by decide)
    · exact validate_ne_unknown _ travelRule a txt (by decide) (by decide)
    · exact validate_ne_unknown _ cabRule a txt (by decide) (by decide)
  · rcases hmem with h | h | h | h | h
    · rw [analyze_fst t a foodRule (by rw [h]; decide), h]
      exact validate_ne_unknown _ foodRule a t (by decide) (by decide)
    · rw [analyze_fst t a accommodationRule (by rw [h]; decide), h]
      exact validate_ne_unknown _ accommodationRule a t (by decide) (by decide)
    · rw [analyze_fst t a dailyCabRule (by rw [h]; decide), h]
      exact validate_ne_unknown _ dailyCabRule a t (by decide) (by decide)
    · rw [analyze_fst t a travelRule (by rw [h]; decide), h]
      exact validate_ne_unknown _ travelRule a t (by decide) (by decide)
    · rw [analyze_fst t a cabRule (by rw [h]; decide), h]
      exact validate_ne_unknown _ cabRule a t (by decide) (by decide)

/-- C5 (amended): when the vector-search capability raises, `vector_search`
falls back to the plain equality-filter scan with the same filters (or the
empty filter), returning the stored documents unchanged — no search-mode
marker is attached — truncated to the default limit 10 rather than the
caller-supplied limit; in vector mode the result is the capability output,
bounded by the caller-supplied limit whenever the capability honors
`k = limit`. -/
theorem vector_search_degraded
    (vecCap : Nat → Option (List (String × String)) → Except String (List StoredDoc))
    (store : List StoredDoc) (limit : Nat)
    (filters : Option (List (String × String))) :
    (∀ e, vecCap limit filters = Except.error e →
      vector_search vecCap store limit filters =
        (store.filter (matchesFilters (filters.getD []))).take 10) ∧
    (∀ rs, vecCap limit filters = Except.ok rs → rs.length ≤ limit →
      vector_search vecCap store limit filters = rs ∧
      (vector_search vecCap store limit filters).length ≤ limit) := by
  constructor
  · intro e he
    unfold vector_search
    rw [he]
    rfl
  · intro rs hok hlen
    unfold vector_search
    rw [hok]
    exact ⟨rfl, hlen⟩

/-- Concrete documents for the C5 witness and counterexample. -/
def storedDocA : StoredDoc := ⟨[("employee_name", "Alice")]⟩

def storedDocB : StoredDoc := ⟨[("employee_name", "Bob")]⟩

/-- A vector-search capability that always raises. -/
def failingVecCap : Nat → Option (List (String × String)) → Except String (List StoredDoc) :=
  fun _ _ => Except.error "vector index unavailable"

/-- Witness for C5: a failing capability over a two-document store with
caller limit 1 returns both documents; an honoring capability returns its
own single hit. -/
theorem vector_search_degraded_witness :
    vector_search failingVecCap [storedDocA, storedDocB] 1 none = [storedDocA, storedDocB] ∧
    vector_search (fun _ _ => Except.ok [storedDocA]) [storedDocA, storedDocB] 1 none
      = [storedDocA] := by
  constructor
  · have h := (vector_search_degraded failingVecCap [storedDocA, storedDocB] 1 none).1
      "vector index unavailable" rfl
    rw [h]
    decide
  · exact ((vector_search_degraded (fun _ _ => Except.ok [storedDocA])
      [storedDocA, storedDocB] 1 none).2 [storedDocA] rfl (by decide)).1

/-- Counterexample to C5 as stated: with caller-supplied limit 1 and a failing
vector capability, the degraded path returns 2 documents, so the caller limit
does not bound the fallback mode. -/
theorem vector_search_limit_counterexample :
    ¬ (vector_search failingVecCap [storedDocA, storedDocB] 1 none).length ≤ 1 := by
  decide

/-- C6 (amended): on generation-capability failure with a non-empty retrieval
result, the chat pipeline returns the fixed apologetic fallback echoing the
query and the sources built from the retrieved documents (top 5), but the
confidence score remains the top hit score, not 0.0. -/
theorem chat_generation_failure_behavior (query err : String) (d : ChatDoc)
    (rest : List ChatDoc) :
    process_chat_query (Except.ok ()) (Except.error err) query (d :: rest) =
      (fallback_chat_response query, ((d :: rest).take 5).map mkChatSource,
       d.score.getD 0) := by
  unfold process_chat_query answer_chat_query
  simp [List.head?]

/-- Concrete retrieved document for the C6 counterexample. -/
def cexChatDoc : ChatDoc :=
  ⟨some "INV-1", some "Alice", some "Fully Reimbursed", some "within limit",
   some "5.2 Travel Expenses", "taxi fare", some 1⟩

/-- Counterexample to C6 as stated: generation fails, the response is the
apologetic fallback, yet the confidence equals the top hit score 1 ≠ 0. -/
theorem chat_confidence_counterexample :
    (process_chat_query (Except.ok ()) (Except.error "llm down") "q" [cexChatDoc]).1 =
      fallback_chat_response "q" ∧
    (process_chat_query (Except.ok ()) (Except.error "llm down") "q" [cexChatDoc]).2.2 ≠ 0 := by
  constructor
  · rfl
  · decide

/-- C7: when the input container fails structural validation, when no invoice
documents could be extracted, or when the required custom policy text is
empty, `analyze_invoices` returns the well-formed error response with status
"error", empty results and zero total invoices. -/
theorem batch_failure_conditions_error
    (validZip useIntegratedPolicy policyProvided validPolicyPdf : Bool)
    (policyText : String) (invoices : List (String × String))
    (step : String → String → Except String InvoiceAnalysisR)
    (dbInsert : Except String (List String))
    (h : validZip = false ∨ invoices = [] ∨
         (useIntegratedPolicy = false ∧ policyText.trim = "")) :
    analyze_invoices validZip useIntegratedPolicy policyProvided validPolicyPdf
        policyText invoices step dbInsert = errorResponse := by
  unfold analyze_invoices
  rcases h with h | h | h
  · rw [if_pos h]
  · by_cases h1 : validZip = false
    · rw [if_pos h1]
    · rw [if_neg h1]
      by_cases h2 : useIntegratedPolicy = false ∧ policyProvided = false
      · rw [if_pos h2]
      · rw [if_neg h2]
        by_cases h3 : useIntegratedPolicy = false ∧ validPolicyPdf = false
        · rw [if_pos h3]
        · rw [if_neg h3]
          by_cases h4 : useIntegratedPolicy = false ∧ policyText.trim = ""
          · rw [if_pos h4]
          · rw [if_neg h4, if_pos h]
  · by_cases h1 : validZip = false
    · rw [if_pos h1]
    · rw [if_neg h1]
      by_cases h2 : useIntegratedPolicy = false ∧ policyProvided = false
      · rw [if_pos h2]
      · rw [if_neg h2]
        by_cases h3 : useIntegratedPolicy = false ∧ validPolicyPdf = false
        · rw [if_pos h3]
        · rw [if_neg h3, if_pos h]

/-- Witness for C7 with an empty extracted-invoice list. -/
theorem batch_failure_conditions_error_witness :
    analyze_invoices true true false false "" []
        (fun _ _ => Except.error "unused") (Except.ok []) = errorResponse ∧
    errorResponse.status = "error" ∧ errorResponse.results = [] ∧
    errorResponse.total_invoices = 0 := by
  refine ⟨?_, rfl, rfl, rfl⟩
  exact batch_failure_conditions_error true true false false "" []
    (fun _ _ => Except.error "unused") (Except.ok []) (Or.inr (Or.inl rfl))

/-- C8: a per-document processing failure is caught locally: the batch still
succeeds, every document of the batch produces exactly one result entry, and
the failing document contributes the "Declined" fallback entry whose reason
names the failure. -/
theorem per_document_failure_isolated
    (useIntegratedPolicy policyProvided validPolicyPdf : Bool) (policyText : String)
    (invoices : List (String × String))
    (step : String → String → Except String InvoiceAnalysisR)
    (ids : List String) (i : Nat) (fn text e : String)
    (hpolicy : useIntegratedPolicy = true ∨
      (policyProvided = true ∧ validPolicyPdf = true ∧ policyText.trim ≠ ""))
    (hdoc : invoices[i]? = some (fn, text))
    (hfail : step fn text = Except.error e) :
    (analyze_invoices true useIntegratedPolicy policyProvided validPolicyPdf
        policyText invoices step (Except.ok ids)).status = "success" ∧
    (analyze_invoices true useIntegratedPolicy policyProvided validPolicyPdf
        policyText invoices step (Except.ok ids)).results.length = invoices.length ∧
    (analyze_invoices true useIntegratedPolicy policyProvided validPolicyPdf
        policyText invoices step (Except.ok ids)).results[i]? =
      some (fallbackInvoiceAnalysis fn e) ∧
    (fallbackInvoiceAnalysis fn e).status = "Declined" ∧
    (fallbackInvoiceAnalysis fn e).reason = "Analysis failed: " ++ e := by
  have hne : invoices ≠ [] := by
    intro hnil
    rw [hnil] at hdoc
    simp at hdoc
  have hnp : ¬(useIntegratedPolicy = false ∧ policyProvided = false) := by
    rcases hpolicy with h | h
    · simp [h]
    · simp [h.1]
  have hnv : ¬(useIntegratedPolicy = false ∧ validPolicyPdf = false) := by
    rcases hpolicy with h | h
    · simp [h]
    · simp [h.2.1]
  have hnt : ¬(useIntegratedPolicy = false ∧ policyText.trim = "") := by
    rcases hpolicy with h | h
    · simp [h]
    · simp [h.2.2]
  have hresp : analyze_invoices true useIntegratedPolicy policyProvided validPolicyPdf
      policyText invoices step (Except.ok ids) =
      ⟨"success",
       invoices.map (fun doc =>
         match step doc.1 doc.2 with
         | Except.ok a => a
         | Except.error e => fallbackInvoiceAnalysis doc.1 e),
       invoices.length⟩ := by
    unfold analyze_invoices
    rw [if_neg (by simp : ¬(true = false)), if_neg hnp, if_neg hnv, if_neg hnt,
        if_neg hne]
    dsimp only
    by_cases hao : invoices.any (fun doc => exceptOk (step doc.1 doc.2)) = true
    · rw [if_pos hao]
    · rw [if_neg hao]
  rw [hresp]
  refine ⟨rfl, by simp, ?_, rfl, rfl⟩
  simp only [List.getElem?_map, hdoc, Option.map_some']
  rw [hfail]

/-- Successful analysis entry used by the C8 witness. -/
def wAnalysis : InvoiceAnalysisR :=
  ⟨"b.pdf", "Fully Reimbursed", "within limit", "5.2 Travel Expenses",
   some 10, some 10, some "travel_expenses", none⟩

/-- Two-document batch used by the C8 witness. -/
def wInvoices : List (String × String) := [("a.pdf", "taxi 100"), ("b.pdf", "bus 10")]

/-- Per-document step that raises on the first document only. -/
def wStep : String → String → Except String InvoiceAnalysisR :=
  fun fn _ => if fn = "a.pdf" then Except.error "boom" else Except.ok wAnalysis

/-- Witness for C8 on a two-document batch whose first document raises. -/
theorem per_document_failure_isolated_witness :
    (analyze_invoices true true false false "" wInvoices wStep (Except.ok [])).status
      = "success" ∧
    (analyze_invoices true true false false "" wInvoices wStep (Except.ok [])).results.length
      = 2 ∧
    (analyze_invoices true true false false "" wInvoices wStep (Except.ok [])).results[0]?
      = some (fallbackInvoiceAnalysis "a.pdf" "boom") := by
  have h := per_document_failure_isolated true false false "" wInvoices wStep []
    0 "a.pdf" "taxi 100" "boom" (Or.inl rfl) (by decide) (by rfl)
  exact ⟨h.1, by rw [h.2.1]; decide, h.2.2.1⟩
